import Mathlib

/-!
A shallow embedding of the LLM content-generation subsystem of
`src/server/llm_generator.py` — the function `generate_email_content`
(lines 40–187) together with the module-level quota tracker
(`_model_quota_timestamps`, `QUOTA_RESET_SECONDS`) — and proofs of
properties of that code.

Modelling choices:
* Wall-clock time is `ℚ`; `time.time()` reads an explicit `now` state
  field that advances only across `time.sleep`, never between two
  consecutive statements (a drift-free clock).
* The process-wide dict `_model_quota_timestamps` is an insertion-ordered
  association list with unique keys, exactly as Python dicts behave
  (re-assignment keeps the original position, `del` removes the entry).
* The generation capability (the `genai` library: `genai.GenerativeModel`
  construction plus `model.generate_content`) is an oracle consulted once
  per model attempt; it answers with an exception at construction time,
  an exception raised by `generate_content`, or a response carrying an
  optional text (`none` models a falsy response object or a missing /
  `None` `.text` attribute, as tested by line 134).
* A raised Python exception is `Except.error` carrying `str(e)`;
  a `try/except Exception` block is `pyTryCatch`.
-/

/-- Time points and durations (Python floats from `time.time()`). -/
abbrev Time := ℚ

/-- The type of `_model_quota_timestamps`: model name ↦ timestamp of the
last quota-exhaustion event (line 37). -/
abbrev QMap := List (String × Time)

/-- Line 38: `QUOTA_RESET_SECONDS = 60`. -/
def QUOTA_RESET_SECONDS : Time := 60

/-- Line 92: `max_cycles = 3`. -/
def MAX_CYCLES : ℕ := 3

/-- Python dict membership / item lookup (`model_name in _model_quota_timestamps`,
`_model_quota_timestamps[model_name]`). -/
def qLookup : QMap → String → Option Time
  | [], _ => none
  | (k, v) :: rest, key => if k = key then some v else qLookup rest key

/-- Python dict item assignment (`_model_quota_timestamps[model_name] = t`):
overwrites in place if the key is present, else appends. -/
def qInsert : QMap → String → Time → QMap
  | [], key, val => [(key, val)]
  | (k, v) :: rest, key, val =>
      if k = key then (k, val) :: rest else (k, v) :: qInsert rest key val

/-- Python dict item deletion (`del _model_quota_timestamps[model_name]`). -/
def qErase : QMap → String → QMap
  | [], _ => []
  | (k, v) :: rest, key => if k = key then rest else (k, v) :: qErase rest key

/-- Does the first character list start the second one? -/
def listStartsWith : List Char → List Char → Bool
  | [], _ => true
  | _ :: _, [] => false
  | a :: as, b :: bs => a = b && listStartsWith as bs

/-- Does the first character list occur contiguously inside the second? -/
def listContainsSeq (needle : List Char) : List Char → Bool
  | [] => listStartsWith needle []
  | b :: bs => listStartsWith needle (b :: bs) || listContainsSeq needle bs

/-- Python `needle in haystack` on strings: substring containment. -/
def strContains (hay needle : String) : Bool :=
  listContainsSeq needle.data hay.data

/-- Lines 142: the quota/rate-limit classification of a failure message:
`"429" in error_str or "ResourceExhausted" in error_str or "Quota" in error_str`. -/
def isQuotaError (msg : String) : Bool :=
  strContains msg "429" || strContains msg "ResourceExhausted" || strContains msg "Quota"

/-- Lines 103–116: the per-model cooldown check with lazy eviction.
Returns (available?, updated quota map).  A model absent from the map is
available; a present entry younger than `QUOTA_RESET_SECONDS` makes it
unavailable; a stale entry is deleted and the model reported available. -/
def checkCooldown (q : QMap) (model : String) (now : Time) : Bool × QMap :=
  match qLookup q model with
  | none => (true, q)
  | some t =>
      if now - t < QUOTA_RESET_SECONDS then (false, q)
      else (true, qErase q model)

/-- Outcome of one `model.generate_content` call (lines 132–138). -/
inductive GenCall where
  | raised (msg : String)
  | resp (text : Option String)
deriving DecidableEq

/-- Outcome of one model attempt as answered by the capability oracle:
either `genai.GenerativeModel(model_name)` raises (line 123), or the
constructed model's `generate_content` runs (lines 129–138). -/
inductive CapResult where
  | initFail (msg : String)
  | call (c : GenCall)
deriving DecidableEq

/-- The generation capability: an oracle answering the `n`-th consult for a
given model name and prompt.  Indexing by the consult counter lets a single
oracle encode any (possibly non-deterministic across attempts) behaviour. -/
abbrev Capability := ℕ → String → String → CapResult

/-- A Python `try: body except Exception as e: handler(str(e))` block. -/
def pyTryCatch (body : Except String α) (handler : String → Except String α) :
    Except String α :=
  match body with
  | .ok a => .ok a
  | .error e => handler e

/-- Lines 130–138, the body of the inner `try`: run `generate_content`;
a falsy response or falsy `.text` raises `ValueError('Empty response from LLM')`;
otherwise the text is returned.  (Python truthiness of `str`: only `""` is
falsy, so whitespace-only text passes the check.) -/
def genTryBody : GenCall → Except String String
  | .raised msg => .error msg
  | .resp none => .error "Empty response from LLM"
  | .resp (some t) => if t = "" then .error "Empty response from LLM" else .ok t

/-- Result of one model attempt: a success return, or "move on to the next
model" with the quota map as updated by the exception handler. -/
inductive AttemptOut where
  | success (text : String)
  | moveOn (quota : QMap)
deriving DecidableEq

/-- Lines 121–152: one model attempt after the cooldown check passed.
`genai.GenerativeModel` failure is caught at line 124 (`continue`).  The
inner `try` body's exception is caught at line 139 and classified: a
quota-flavoured message records `now` for the model (line 144) and breaks;
any other message just breaks.  `max_retries_per_model = 1`, so the
`for attempt in range(...)` loop runs its body exactly once. -/
def attemptModel (res : CapResult) (model : String) (now : Time) (q : QMap) :
    Except String AttemptOut :=
  match res with
  | .initFail _msg => .ok (.moveOn q)
  | .call c =>
      pyTryCatch ((genTryBody c).map AttemptOut.success)
        (fun msg =>
          if isQuotaError msg then .ok (.moveOn (qInsert q model now))
          else .ok (.moveOn q))

/-- The evolving state of one `generate_email_content` run: the global quota
map, the clock, the log of capability consults (which models, in order),
the log of `time.sleep` durations, and the total number of consults. -/
structure GenState where
  quota : QMap
  now : Time
  trace : List String
  sleeps : List Time
  calls : ℕ
deriving DecidableEq

/-- `time.sleep(w)`: the clock advances by `w` and the duration is logged. -/
def doSleep (st : GenState) (w : Time) : GenState :=
  { st with now := st.now + w, sleeps := st.sleeps ++ [w] }

/-- The fresh process state at clock value `now` (`_model_quota_timestamps = {}`). -/
def initState (now : Time) : GenState :=
  { quota := [], now := now, trace := [], sleeps := [], calls := 0 }

/-- Result of one full pass over the model list (the `for model_index,
model_name in enumerate(model_list)` loop, lines 102–152): an early success
return, or the end of the pass with the counters `models_tried_this_cycle`
and `models_in_cooldown`. -/
inductive CycleOut where
  | success (text : String) (st : GenState)
  | done (tried : ℕ) (cooldown : ℕ) (st : GenState)
deriving DecidableEq

/-- Lines 102–152: one pass over the model list.  Each model is first put
through the cooldown check (skip and count when unavailable); otherwise the
capability is consulted once (`models_tried_this_cycle += 1`) and the
attempt either returns text or moves on with an updated quota map. -/
def runModels (cap : Capability) (prompt : String) :
    List String → GenState → ℕ → ℕ → Except String CycleOut
  | [], st, tried, cooldown => .ok (.done tried cooldown st)
  | model :: rest, st, tried, cooldown =>
      match checkCooldown st.quota model st.now with
      | (false, q') =>
          runModels cap prompt rest { st with quota := q' } tried (cooldown + 1)
      | (true, q') =>
          let res := cap st.calls model prompt
          let st' := { st with quota := q', trace := st.trace ++ [model],
                               calls := st.calls + 1 }
          match attemptModel res model st'.now st'.quota with
          | .error e => .error e
          | .ok (.success t) => .ok (.success t st')
          | .ok (.moveOn q'') =>
              runModels cap prompt rest { st' with quota := q'' } (tried + 1) cooldown

/-- Lines 157–161: starting from `min_wait = QUOTA_RESET_SECONDS`, fold over
the quota map and keep the smallest remaining cooldown. -/
def minWaitLoop (now : Time) : QMap → Time → Time
  | [], acc => acc
  | (_, ts) :: rest, acc =>
      let rem := QUOTA_RESET_SECONDS - (now - ts)
      minWaitLoop now rest (if rem < acc then rem else acc)

/-- Lines 156–161: the minimum wait computed when every model was skipped. -/
def minWait (q : QMap) (now : Time) : Time :=
  minWaitLoop now q QUOTA_RESET_SECONDS

/-- Python `int(x)` on a float: truncation toward zero. -/
def pyint (x : ℚ) : ℤ :=
  if 0 ≤ x then Int.fdiv x.num x.den else -(Int.fdiv (-x).num (-x).den)

/-- Lines 94–179: the `for cycle in range(max_cycles)` loop, phrased with
`fuel` = number of cycles still to run including the current one (so the
final cycle is `fuel = 1`).  After a pass: if no model was tried and every
model was counted in cooldown, either sleep `int(min_wait) + 1` seconds and
start the next cycle (non-final), or break to the fallback (final cycle);
if at least one model was tried, sleep 3 seconds before a non-final next
cycle.  `none` means the loop ended without a success return. -/
def runCycles (cap : Capability) (prompt : String) (models : List String) :
    GenState → ℕ → Except String (Option String × GenState)
  | st, 0 => .ok (none, st)
  | st, fuel + 1 =>
      match runModels cap prompt models st 0 0 with
      | .error e => .error e
      | .ok (.success t st') => .ok (some t, st')
      | .ok (.done tried cooldown st') =>
          if tried = 0 ∧ cooldown = models.length then
            if 0 < fuel then
              let w : Time := ((pyint (minWait st'.quota st'.now) + 1 : ℤ) : ℚ)
              runCycles cap prompt models (doSleep st' w) fuel
            else .ok (none, st')
          else if 0 < tried ∧ 0 < fuel then
            runCycles cap prompt models (doSleep st' 3) fuel
          else runCycles cap prompt models st' fuel

/-- Lines 61–70: `full_prompt`, built from the base prompt (the `LLM_PROMPT`
environment variable), the recipient, the context and the sender name. -/
def fullPrompt (basePrompt recipient ctx sender : String) : String :=
  basePrompt ++ "\n\nRecipient Name: " ++ recipient ++ "\nContext: " ++ ctx ++
    "\nSender Name: " ++ sender ++ "\n\n" ++
    "IMPORTANT: Return ONLY a raw JSON object with keys \x27subject\x27 and \x27body\x27. " ++
    "Do not include any markdown formatting (like ```json), explanations, or templates. " ++
    "The \x27body\x27 should be the ready-to-send email content."

/-- One hex digit, lowercase, as emitted by Python's `json.dumps`. -/
def hexDigit (n : ℕ) : Char :=
  if n < 10 then Char.ofNat (48 + n) else Char.ofNat (87 + n)

/-- Four lowercase hex digits. -/
def hex4 (n : ℕ) : String :=
  String.mk [hexDigit (n / 4096 % 16), hexDigit (n / 256 % 16),
             hexDigit (n / 16 % 16), hexDigit (n % 16)]

/-- Python `json.dumps` escaping of one character (default `ensure_ascii=True`):
printable ASCII passes through except `"` and `\`; the common control
characters use short escapes; everything else becomes `\uXXXX`, with
surrogate pairs above the BMP. -/
def jsonEscapeChar (c : Char) : String :=
  if c = '"' then "\\\""
  else if c = '\\' then "\\\\"
  else if c = '\n' then "\\n"
  else if c = '\r' then "\\r"
  else if c = '\t' then "\\t"
  else if c = Char.ofNat 8 then "\\b"
  else if c = Char.ofNat 12 then "\\f"
  else if 32 ≤ c.toNat ∧ c.toNat ≤ 126 then String.mk [c]
  else if c.toNat < 65536 then "\\u" ++ hex4 c.toNat
  else "\\u" ++ hex4 (55296 + (c.toNat - 65536) / 1024) ++
       "\\u" ++ hex4 (56320 + (c.toNat - 65536) % 1024)

/-- Python `json.dumps` escaping of a string's characters. -/
def jsonEscape (s : String) : String :=
  String.join (s.data.map jsonEscapeChar)

/-- A JSON string literal as serialized by `json.dumps`. -/
def jsonStringLit (s : String) : String :=
  "\"" ++ jsonEscape s ++ "\""

/-- `json.dumps({"subject": subject, "body": body})`: the serialized
two-key object, in Python's default formatting. -/
def jsonDumpsSubjectBody (subject bodyText : String) : String :=
  "\x7b\"subject\": " ++ jsonStringLit subject ++
    ", \"body\": " ++ jsonStringLit bodyText ++ "\x7d"

/-- Lines 76 / 184: the fallback subject, `f"Hello {recipient_name}"`. -/
def fallbackSubject (recipient : String) : String :=
  "Hello " ++ recipient

/-- Lines 77 / 185: the fallback body built from recipient, context and
`config.SENDER_INFO['name']`. -/
def fallbackBody (recipient ctx sender : String) : String :=
  "Dear " ++ recipient ++ ",\n\n" ++ ctx ++ "\n\nBest regards,\n" ++ sender

/-- Lines 74–79 and 182–187: the fallback content, a `json.dumps` of the
two-key dict. -/
def fallbackContent (recipient ctx sender : String) : String :=
  jsonDumpsSubjectBody (fallbackSubject recipient) (fallbackBody recipient ctx sender)

/-- `config.LLM_API["model"]`: either a single string or a list of strings
(the code tolerates both, lines 82–84). -/
inductive ModelCfg where
  | single (m : String)
  | list (ms : List String)
deriving DecidableEq

/-- Lines 82–84: `if isinstance(model_list, str): model_list = [model_list]`. -/
def normalizeModels : ModelCfg → List String
  | .single m => [m]
  | .list ms => ms

/-- The value and final state of one `generate_email_content` run. -/
structure GenOutput where
  result : String
  state : GenState
deriving DecidableEq

/-- Lines 40–187: `generate_email_content(recipient_name, context)`.
`genaiAvailable` is `genai is not None` (line 73); `cap` the generation
capability; `basePrompt` the `LLM_PROMPT` environment variable; `sender`
is `config.SENDER_INFO['name']`; `st0` the module state (quota map, clock)
at call time.  An `Except.error` result would be an uncaught exception
propagating to the caller. -/
def generate_email_content (genaiAvailable : Bool) (cfg : ModelCfg)
    (cap : Capability) (basePrompt sender recipient ctx : String)
    (st0 : GenState) : Except String GenOutput :=
  let prompt := fullPrompt basePrompt recipient ctx sender
  if genaiAvailable = false then
    .ok ⟨fallbackContent recipient ctx sender, st0⟩
  else
    let models := normalizeModels cfg
    match runCycles cap prompt models st0 MAX_CYCLES with
    | .error e => .error e
    | .ok (some t, st) => .ok ⟨t, st⟩
    | .ok (none, st) => .ok ⟨fallbackContent recipient ctx sender, st⟩

/-! ## Helper lemmas -/

theorem qLookup_qInsert_self (q : QMap) (M : String) (T : Time) :
    qLookup (qInsert q M T) M = some T := by
  induction q with
  | nil => simp [qInsert, qLookup]
  | cons p rest ih =>
      obtain ⟨k, v⟩ := p
      by_cases h : k = M <;> simp [qInsert, qLookup, h, ih]

theorem attemptModel_isOk (res : CapResult) (model : String) (now : Time) (q : QMap) :
    ∃ o, attemptModel res model now q = .ok o := by
  cases res with
  | initFail msg => exact ⟨_, rfl⟩
  | call c =>
      cases c with
      | raised msg =>
          simp only [attemptModel, genTryBody, Except.map, pyTryCatch]
          split <;> exact ⟨_, rfl⟩
      | resp t =>
          cases t with
          | none =>
              simp only [attemptModel, genTryBody, Except.map, pyTryCatch]
              split <;> exact ⟨_, rfl⟩
          | some s =>
              by_cases hs : s = "" <;>
                simp only [attemptModel, genTryBody, hs, if_true, if_false, reduceIte,
                  Except.map, pyTryCatch] <;>
                first
                  | (split <;> exact ⟨_, rfl⟩)
                  | exact ⟨_, rfl⟩

theorem runModels_isOk (cap : Capability) (prompt : String) (models : List String) :
    ∀ (st : GenState) (tried cooldown : ℕ),
      ∃ o, runModels cap prompt models st tried cooldown = .ok o := by
  induction models with
  | nil => exact fun st tried cooldown => ⟨_, rfl⟩
  | cons M rest ih =>
      intro st tried cooldown
      unfold runModels
      rcases hchk : checkCooldown st.quota M st.now with ⟨avail, q'⟩
      cases avail
      · exact ih _ _ _
      · obtain ⟨o, ho⟩ :=
          attemptModel_isOk (cap st.calls M prompt) M st.now q'
        simp only [ho]
        cases o with
        | success t => exact ⟨_, rfl⟩
        | moveOn q'' => exact ih _ _ _

/-- Unfolding equation: one pass step for a model found in cooldown. -/
theorem runModels_cons_cooldown (cap : Capability) (prompt M : String)
    (rest : List String) (st : GenState) (tried cooldown : ℕ) (q' : QMap)
    (hchk : checkCooldown st.quota M st.now = (false, q')) :
    runModels cap prompt (M :: rest) st tried cooldown =
      runModels cap prompt rest { st with quota := q' } tried (cooldown + 1) := by
  conv_lhs => unfold runModels
  rw [hchk]

/-- Unfolding equation: one pass step for an available model whose attempt
returns text — the success exit. -/
theorem runModels_cons_success (cap : Capability) (prompt M : String)
    (rest : List String) (st : GenState) (tried cooldown : ℕ) (q' : QMap) (t : String)
    (hchk : checkCooldown st.quota M st.now = (true, q'))
    (hatt : attemptModel (cap st.calls M prompt) M st.now q' = .ok (.success t)) :
    runModels cap prompt (M :: rest) st tried cooldown =
      .ok (.success t { st with quota := q', trace := st.trace ++ [M],
                                calls := st.calls + 1 }) := by
  conv_lhs => unfold runModels
  rw [hchk]; dsimp only; rw [hatt]

/-- Unfolding equation: one pass step for an available model whose attempt
fails — move on to the remaining models with the updated quota map. -/
theorem runModels_cons_moveOn (cap : Capability) (prompt M : String)
    (rest : List String) (st : GenState) (tried cooldown : ℕ) (q' q'' : QMap)
    (hchk : checkCooldown st.quota M st.now = (true, q'))
    (hatt : attemptModel (cap st.calls M prompt) M st.now q' = .ok (.moveOn q'')) :
    runModels cap prompt (M :: rest) st tried cooldown =
      runModels cap prompt rest
        { st with quota := q'', trace := st.trace ++ [M], calls := st.calls + 1 }
        (tried + 1) cooldown := by
  conv_lhs => unfold runModels
  rw [hchk]; dsimp only; rw [hatt]

/-- Unfolding equation: a cycle whose pass returned early with text. -/
theorem runCycles_succ_success (cap : Capability) (prompt : String)
    (models : List String) (st st' : GenState) (f : ℕ) (t : String)
    (h : runModels cap prompt models st 0 0 = .ok (.success t st')) :
    runCycles cap prompt models st (f + 1) = .ok (some t, st') := by
  conv_lhs => unfold runCycles
  rw [h]

/-- Unfolding equation: a cycle whose pass completed, exposing the
end-of-pass branching of lines 154–179. -/
theorem runCycles_succ_done (cap : Capability) (prompt : String)
    (models : List String) (st st' : GenState) (f tried cooldown : ℕ)
    (h : runModels cap prompt models st 0 0 = .ok (.done tried cooldown st')) :
    runCycles cap prompt models st (f + 1) =
      if tried = 0 ∧ cooldown = models.length then
        if 0 < f then
          runCycles cap prompt models
            (doSleep st' ((pyint (minWait st'.quota st'.now) + 1 : ℤ) : ℚ)) f
        else .ok (none, st')
      else if 0 < tried ∧ 0 < f then
        runCycles cap prompt models (doSleep st' 3) f
      else runCycles cap prompt models st' f := by
  conv_lhs => unfold runCycles
  rw [h]

theorem runCycles_isOk (cap : Capability) (prompt : String) (models : List String) :
    ∀ (fuel : ℕ) (st : GenState),
      ∃ r, runCycles cap prompt models st fuel = .ok r := by
  intro fuel
  induction fuel with
  | zero => exact fun st => ⟨_, rfl⟩
  | succ f ih =>
      intro st
      obtain ⟨o, ho⟩ := runModels_isOk cap prompt models st 0 0
      cases o with
      | success t st' => exact ⟨_, runCycles_succ_success cap prompt models st st' f t ho⟩
      | done tried cooldown st' =>
          rw [runCycles_succ_done cap prompt models st st' f tried cooldown ho]
          split
          · split
            · exact ih _
            · exact ⟨_, rfl⟩
          · split
            · exact ih _
            · exact ih _

/-! ## The claims -/

/-- C1: for every recipient name, context, configuration and behaviour of
the generation capability (success, quota failure, other failure, missing
library), `generate_email_content` returns a string result and never lets
an exception or error escape to its caller: the run is always `Except.ok`. -/
theorem C1_generate_never_fails (genaiAvailable : Bool) (cfg : ModelCfg)
    (cap : Capability) (basePrompt sender recipient ctx : String) (st0 : GenState) :
    ∃ out : GenOutput,
      generate_email_content genaiAvailable cfg cap basePrompt sender recipient ctx st0 =
        .ok out := by
  unfold generate_email_content
  cases genaiAvailable with
  | false => exact ⟨_, rfl⟩
  | true =>
      obtain ⟨r, hr⟩ :=
        runCycles_isOk cap (fullPrompt basePrompt recipient ctx sender)
          (normalizeModels cfg) MAX_CYCLES st0
      simp only [Bool.true_eq_false, if_false, reduceIte, hr]
      obtain ⟨txt, st⟩ := r
      cases txt with
      | none => exact ⟨_, rfl⟩
      | some t => exact ⟨_, rfl⟩

/-- C3: after `recordExhaustion(M)` at time `T` (the dict assignment
`_model_quota_timestamps[M] = T`), the availability check at time `T + ε`
reports `M` unavailable exactly when `ε < QUOTA_RESET_SECONDS`; when
`ε ≥ QUOTA_RESET_SECONDS` the check deletes `M`'s entry as a side effect
and reports `M` available. -/
theorem C3_cooldown_window (q : QMap) (M : String) (T ε : Time) :
    ((checkCooldown (qInsert q M T) M (T + ε)).1 = false ↔ ε < QUOTA_RESET_SECONDS) ∧
    (QUOTA_RESET_SECONDS ≤ ε →
      checkCooldown (qInsert q M T) M (T + ε) =
        (true, qErase (qInsert q M T) M)) := by
  have hlook := qLookup_qInsert_self q M T
  have harith : T + ε - T = ε := by ring
  unfold checkCooldown
  rw [hlook]
  dsimp only
  rw [harith]
  constructor
  · by_cases h : ε < QUOTA_RESET_SECONDS <;> simp [h]
  · intro h
    rw [if_neg (not_lt.mpr h)]

/-- Witness for C3 at concrete inputs: after recording exhaustion for
model `"m"` at time 0, the check at time 30 reports it unavailable and the
check at time 60 evicts the entry and reports it available. -/
theorem C3_cooldown_window_witness :
    (checkCooldown (qInsert [] "m" 0) "m" (0 + 30)).1 = false ∧
    checkCooldown (qInsert [] "m" 0) "m" (0 + 60) =
      (true, qErase (qInsert [] "m" 0) "m") := by
  constructor
  · exact (C3_cooldown_window [] "m" 0 30).1.mpr (by norm_num [QUOTA_RESET_SECONDS])
  · exact (C3_cooldown_window [] "m" 0 60).2 (by norm_num [QUOTA_RESET_SECONDS])

/-- C10: a single-string model configuration is first normalized to a
one-element list, so the behaviour on configuration `"m"` is identical to
the behaviour on configuration `["m"]` for all inputs, capability
behaviours and starting states. -/
theorem C10_single_string_equiv (m : String) (genaiAvailable : Bool)
    (cap : Capability) (basePrompt sender recipient ctx : String) (st0 : GenState) :
    generate_email_content genaiAvailable (.single m) cap basePrompt sender recipient ctx st0 =
      generate_email_content genaiAvailable (.list [m]) cap basePrompt sender recipient ctx st0 :=
  rfl

/-- Unfolding equation: with the library present, `generate_email_content`
returns the text of a successful cycle run. -/
theorem generate_true_some (cfg : ModelCfg) (cap : Capability)
    (basePrompt sender recipient ctx : String) (st0 st : GenState) (t : String)
    (h : runCycles cap (fullPrompt basePrompt recipient ctx sender)
          (normalizeModels cfg) st0 MAX_CYCLES = .ok (some t, st)) :
    generate_email_content true cfg cap basePrompt sender recipient ctx st0 =
      .ok ⟨t, st⟩ := by
  have hdef : generate_email_content true cfg cap basePrompt sender recipient ctx st0 =
      (match runCycles cap (fullPrompt basePrompt recipient ctx sender)
              (normalizeModels cfg) st0 MAX_CYCLES with
       | .error e => .error e
       | .ok (some t, st) => .ok ⟨t, st⟩
       | .ok (none, st) => .ok ⟨fallbackContent recipient ctx sender, st⟩) := rfl
  rw [hdef, h]

/-- Unfolding equation: with the library present, a cycle run that ends
without a success makes `generate_email_content` return the fallback. -/
theorem generate_true_none (cfg : ModelCfg) (cap : Capability)
    (basePrompt sender recipient ctx : String) (st0 st : GenState)
    (h : runCycles cap (fullPrompt basePrompt recipient ctx sender)
          (normalizeModels cfg) st0 MAX_CYCLES = .ok (none, st)) :
    generate_email_content true cfg cap basePrompt sender recipient ctx st0 =
      .ok ⟨fallbackContent recipient ctx sender, st⟩ := by
  have hdef : generate_email_content true cfg cap basePrompt sender recipient ctx st0 =
      (match runCycles cap (fullPrompt basePrompt recipient ctx sender)
              (normalizeModels cfg) st0 MAX_CYCLES with
       | .error e => .error e
       | .ok (some t, st) => .ok ⟨t, st⟩
       | .ok (none, st) => .ok ⟨fallbackContent recipient ctx sender, st⟩) := rfl
  rw [hdef, h]

deriving instance DecidableEq for Except

/-- A capability that always raises a quota-flavoured error. -/
def cap429 : Capability := fun _ _ _ => .call (.raised "429 boom")

/-- A capability that always answers with the raw text `"x"`. -/
def capRawX : Capability := fun _ _ _ => .call (.resp (some "x"))

/-- A capability that always answers with whitespace-only text. -/
def capWS : Capability := fun _ _ _ => .call (.resp (some " "))

/-- A capability that always answers with the text `"T"`. -/
def capT : Capability := fun _ _ _ => .call (.resp (some "T"))

/-- The serialized two-key object always starts with a brace. -/
theorem jsonDumpsSubjectBody_data (s b : String) :
    ∃ l, (jsonDumpsSubjectBody s b).data = '\x7b' :: l := by
  simp only [jsonDumpsSubjectBody, String.data_append]
  exact ⟨_, rfl⟩

/-- The fallback subject is never the empty string. -/
theorem fallbackSubject_ne_empty (r : String) : fallbackSubject r ≠ "" := by
  intro h
  have hd : ("Hello " ++ r).data = "".data := congrArg String.data h
  rw [String.data_append] at hd
  rw [List.append_eq_nil] at hd
  exact absurd hd.1 (by decide)

/-- The fallback body is never the empty string. -/
theorem fallbackBody_ne_empty (r c s : String) : fallbackBody r c s ≠ "" := by
  intro h
  have hd : (("Dear " ++ r) ++ (",\n\n" ++ c ++ "\n\nBest regards,\n" ++ s)).data = "".data := by
    rw [← h]; simp [fallbackBody, String.data_append, List.append_assoc]
  rw [String.data_append, List.append_eq_nil, String.data_append, List.append_eq_nil] at hd
  exact absurd hd.1.1 (by decide)

/-- C2 as stated is false on the code: on the success path the capability's
raw text is returned verbatim (line 138), with no validation, so it need
not JSON-decode to a two-key object.  Concrete run: one model, capability
answers `"x"`, and `generate_email_content` returns exactly `"x"`, which is
not the serialization of any subject/body object (it does not even start
with a brace). -/
theorem C2_counterexample :
    generate_email_content true (.list ["m"]) capRawX "p" "S" "R" "ctx" (initState 0) =
      .ok ⟨"x", { quota := [], now := 0, trace := ["m"], sleeps := [], calls := 1 }⟩ ∧
    ∀ s b : String, "x" ≠ jsonDumpsSubjectBody s b := by
  constructor
  · rfl
  · intro s b h
    obtain ⟨l, hl⟩ := jsonDumpsSubjectBody_data s b
    have hd : ("x" : String).data = '\x7b' :: l := by rw [h, hl]
    have hx : ('x' : Char) :: [] = '\x7b' :: l := hd
    injection hx with hx1 _
    exact absurd hx1 (by decide)

/-- C2 amended: the two-key JSON-shape guarantee holds for the fallback
content (returned when the library is missing, and whenever all cycles end
without a success): it is the serialization of exactly the keys "subject"
and "body", both non-empty.  On the success path the capability's raw text
is returned verbatim and carries no such guarantee. -/
theorem C2_fallback_is_two_key_json (recipient ctx sender : String) :
    (∀ (cfg : ModelCfg) (cap : Capability) (basePrompt : String) (st0 : GenState),
      generate_email_content false cfg cap basePrompt sender recipient ctx st0 =
        .ok ⟨fallbackContent recipient ctx sender, st0⟩) ∧
    (∀ (cfg : ModelCfg) (cap : Capability) (basePrompt : String) (st0 st : GenState),
      runCycles cap (fullPrompt basePrompt recipient ctx sender)
          (normalizeModels cfg) st0 MAX_CYCLES = .ok (none, st) →
      generate_email_content true cfg cap basePrompt sender recipient ctx st0 =
        .ok ⟨fallbackContent recipient ctx sender, st⟩) ∧
    ∃ s b, fallbackContent recipient ctx sender = jsonDumpsSubjectBody s b ∧
      s ≠ "" ∧ b ≠ "" := by
  refine ⟨fun cfg cap basePrompt st0 => rfl,
          fun cfg cap basePrompt st0 st h =>
            generate_true_none cfg cap basePrompt sender recipient ctx st0 st h,
          fallbackSubject recipient, fallbackBody recipient ctx sender, rfl,
          fallbackSubject_ne_empty recipient,
          fallbackBody_ne_empty recipient ctx sender⟩

/-- Witness for C2's amended theorem at concrete inputs: the inner
implication discharged on the run with an empty model list (which ends
with no success after sleeping twice). -/
theorem C2_fallback_is_two_key_json_witness :
    generate_email_content true (.list []) cap429 "p" "S" "R" "ctx" (initState 0) =
      .ok ⟨fallbackContent "R" "ctx" "S",
           { quota := [], now := 122, trace := [], sleeps := [61, 61], calls := 0 }⟩ :=
  (C2_fallback_is_two_key_json "R" "ctx" "S").2.1 (.list []) cap429 "p" (initState 0)
    { quota := [], now := 122, trace := [], sleeps := [61, 61], calls := 0 }
    (by norm_num [runCycles, runModels, checkCooldown, qLookup, minWait, minWaitLoop,
          pyint, doSleep, initState, MAX_CYCLES, QUOTA_RESET_SECONDS, normalizeModels])

/-- C4: with models `[A, B, C]`, none in cooldown, if the capability's
answer for `A` is non-empty text then the capability is consulted exactly
once — for `A`, never `B` or `C` (the consult log is `[A]`,
the consult count 1) — and that text is returned immediately. -/
theorem C4_priority_first_model (A B C t : String) (cap : Capability)
    (basePrompt sender recipient ctx : String) (now : Time)
    (hcap : cap 0 A (fullPrompt basePrompt recipient ctx sender) = .call (.resp (some t)))
    (ht : t ≠ "") :
    generate_email_content true (.list [A, B, C]) cap basePrompt sender recipient ctx
        (initState now) =
      .ok ⟨t, { quota := [], now := now, trace := [A], sleeps := [], calls := 1 }⟩ := by
  have hchk : checkCooldown (initState now).quota A (initState now).now = (true, []) := rfl
  have hatt : attemptModel
      (cap (initState now).calls A (fullPrompt basePrompt recipient ctx sender))
      A (initState now).now [] = .ok (.success t) := by
    have hc : cap (initState now).calls A (fullPrompt basePrompt recipient ctx sender) =
        .call (.resp (some t)) := hcap
    rw [hc]
    simp [attemptModel, genTryBody, pyTryCatch, Except.map, ht]
  have hrm := runModels_cons_success cap (fullPrompt basePrompt recipient ctx sender)
      A [B, C] (initState now) 0 0 [] t hchk hatt
  have hrc := runCycles_succ_success cap (fullPrompt basePrompt recipient ctx sender)
      [A, B, C] (initState now) _ 2 t hrm
  exact generate_true_some (.list [A, B, C]) cap basePrompt sender recipient ctx
    (initState now) _ t hrc

/-- Witness for C4 at concrete inputs. -/
theorem C4_priority_first_model_witness :
    generate_email_content true (.list ["a", "b", "c"]) capT "p" "S" "R" "ctx" (initState 0) =
      .ok ⟨"T", { quota := [], now := 0, trace := ["a"], sleeps := [], calls := 1 }⟩ :=
  C4_priority_first_model "a" "b" "c" "T" capT "p" "S" "R" "ctx" 0 rfl (by decide)

/-- C5: when an available model's attempt raises, the exhaustion timestamp
is recorded in the quota map exactly when the failure message contains
"429", "ResourceExhausted" or "Quota"; in either case the pass moves on to
the remaining models with a single consult spent, never retrying the
failed model in the same cycle. -/
theorem C5_quota_marking (cap : Capability) (prompt M : String) (rest : List String)
    (st : GenState) (tried cooldown : ℕ) (msg : String) (q' : QMap)
    (hchk : checkCooldown st.quota M st.now = (true, q'))
    (hcap : cap st.calls M prompt = .call (.raised msg)) :
    runModels cap prompt (M :: rest) st tried cooldown =
      runModels cap prompt rest
        { st with quota := if isQuotaError msg then qInsert q' M st.now else q',
                  trace := st.trace ++ [M], calls := st.calls + 1 }
        (tried + 1) cooldown := by
  have hatt : attemptModel (cap st.calls M prompt) M st.now q' =
      .ok (.moveOn (if isQuotaError msg then qInsert q' M st.now else q')) := by
    rw [hcap]
    simp only [attemptModel, genTryBody, Except.map, pyTryCatch]
    split <;> rfl
  exact runModels_cons_moveOn cap prompt M rest st tried cooldown q' _ hchk hatt

/-- Witness for C5 at concrete inputs: a quota-flavoured failure message. -/
theorem C5_quota_marking_witness :
    runModels cap429 "p" ["m1", "m2"] (initState 5) 0 0 =
      runModels cap429 "p" ["m2"]
        { initState 5 with
            quota := if isQuotaError "429 boom" then qInsert [] "m1" 5 else [],
            trace := (initState 5).trace ++ ["m1"],
            calls := (initState 5).calls + 1 }
        1 0 :=
  C5_quota_marking cap429 "p" "m1" ["m2"] (initState 5) 0 0 "429 boom" [] rfl rfl

/-- C6 as stated is false on the code: with an empty model list (and the
library present) the cycle loop still runs.  Its pass counters are both
zero, which vacuously satisfies the all-in-cooldown test
`models_tried_this_cycle == 0 and models_in_cooldown == len(model_list)`,
so the run sleeps `int(60) + 1 = 61` seconds after each of the two
non-final cycles — 122 seconds in total — before returning the fallback. -/
theorem C6_counterexample :
    generate_email_content true (.list []) cap429 "p" "S" "R" "ctx" (initState 0) =
      .ok ⟨fallbackContent "R" "ctx" "S",
           { quota := [], now := 122, trace := [], sleeps := [61, 61], calls := 0 }⟩ ∧
    ([(61 : Time), 61] : List Time) ≠ ([] : List Time) := by
  constructor
  · exact generate_true_none (.list []) cap429 "p" "S" "R" "ctx" (initState 0) _
      (by norm_num [runCycles, runModels, checkCooldown, qLookup, minWait, minWaitLoop,
            pyint, doSleep, initState, MAX_CYCLES, QUOTA_RESET_SECONDS, normalizeModels])
  · simp

/-- C6 amended: with an empty model preference list (library present), the
run attempts no generation (zero capability consults) and returns the
fallback, but it does execute the cycle loop, sleeping 61 seconds after
each of the two non-final cycles. -/
theorem C6_empty_list_sleeps (cap : Capability) (basePrompt sender recipient ctx : String)
    (now : Time) :
    generate_email_content true (.list []) cap basePrompt sender recipient ctx
        (initState now) =
      .ok ⟨fallbackContent recipient ctx sender,
           { quota := [], now := now + 61 + 61, trace := [], sleeps := [61, 61],
             calls := 0 }⟩ := by
  apply generate_true_none
  norm_num [runCycles, runModels, checkCooldown, minWait, minWaitLoop, pyint, doSleep,
        initState, MAX_CYCLES, QUOTA_RESET_SECONDS, normalizeModels]

/-- C7 as stated is false on the code: whitespace-only text is truthy in
Python, so the emptiness check at line 134 passes and the text is returned
as a success.  Concrete run: the capability answers `" "` and
`generate_email_content` returns `" "`, with no cooldown recorded and no
further model attempted. -/
theorem C7_counterexample :
    generate_email_content true (.list ["m"]) capWS "p" "S" "R" "ctx" (initState 0) =
      .ok ⟨" ", { quota := [], now := 0, trace := ["m"], sleeps := [], calls := 1 }⟩ :=
  rfl

/-- C7 amended: a missing (`None`/falsy) or empty response text raises
`ValueError('Empty response from LLM')`, which is classified as a
non-quota failure: the text is not returned, no cooldown timestamp is
recorded (the quota map is left as the cooldown check produced it), and
the pass proceeds to the next model.  Whitespace-only but non-empty text
is instead returned as a success. -/
theorem C7_empty_text_next_model (cap : Capability) (prompt M : String)
    (rest : List String) (st : GenState) (tried cooldown : ℕ) (q' : QMap)
    (txt : Option String)
    (hchk : checkCooldown st.quota M st.now = (true, q'))
    (hcap : cap st.calls M prompt = .call (.resp txt))
    (hempty : txt = none ∨ txt = some "") :
    runModels cap prompt (M :: rest) st tried cooldown =
      runModels cap prompt rest
        { st with quota := q', trace := st.trace ++ [M], calls := st.calls + 1 }
        (tried + 1) cooldown := by
  have hq : isQuotaError "Empty response from LLM" = false := by decide
  have hatt : attemptModel (cap st.calls M prompt) M st.now q' = .ok (.moveOn q') := by
    rw [hcap]
    rcases hempty with h | h <;> subst h <;>
      simp [attemptModel, genTryBody, Except.map, pyTryCatch, hq]
  exact runModels_cons_moveOn cap prompt M rest st tried cooldown q' q' hchk hatt

/-- A capability whose response carries no text. -/
def capNone : Capability := fun _ _ _ => .call (.resp none)

/-- Witness for C7's amended theorem at concrete inputs. -/
theorem C7_empty_text_next_model_witness :
    runModels capNone "p" ["m1", "m2"] (initState 7) 0 0 =
      runModels capNone "p" ["m2"]
        { initState 7 with
            quota := [],
            trace := (initState 7).trace ++ ["m1"],
            calls := (initState 7).calls + 1 }
        1 0 :=
  C7_empty_text_next_model capNone "p" "m1" ["m2"] (initState 7) 0 0 [] none rfl rfl
    (Or.inl rfl)

/-- A call-time state in which model "m" was marked exhausted at time 0 and
the clock reads 10: its remaining cooldown is 50 seconds. -/
def st8 : GenState :=
  { quota := [("m", 0)], now := 10, trace := [], sleeps := [], calls := 0 }

/-- C8 as stated is false on the code: the sleep is `int(min_wait) + 1`
seconds (line 165), not exactly the minimum remaining cooldown.  Concrete
run from `st8`: the minimum remaining cooldown is 50, yet the recorded
first sleep is 51 (and the run then proceeds: retry at 61, quota failure,
3-second pause, final cycle skip, fallback). -/
theorem C8_counterexample :
    minWait st8.quota st8.now = 50 ∧
    generate_email_content true (.list ["m"]) cap429 "p" "S" "R" "ctx" st8 =
      .ok ⟨fallbackContent "R" "ctx" "S",
           { quota := [("m", 61)], now := 64, trace := ["m"], sleeps := [51, 3],
             calls := 1 }⟩ ∧
    (51 : Time) ≠ (50 : Time) := by
  refine ⟨?_, ?_, by norm_num⟩
  · norm_num [minWait, minWaitLoop, st8, QUOTA_RESET_SECONDS]
  · exact generate_true_none (.list ["m"]) cap429 "p" "S" "R" "ctx" st8 _
      (by norm_num [runCycles, runModels, checkCooldown, qLookup, qInsert, qErase,
            attemptModel, genTryBody, pyTryCatch, isQuotaError, strContains,
            listContainsSeq, listStartsWith, minWait, minWaitLoop, pyint, doSleep, st8,
            MAX_CYCLES, QUOTA_RESET_SECONDS, normalizeModels, cap429, Except.map])

/-- C8 amended: after a non-final cycle in which every model was skipped
for cooldown (zero attempts), the code sleeps `int(min_wait) + 1` seconds —
the truncated minimum remaining cooldown plus one — before the next cycle;
on the final cycle it does not sleep and falls through to the fallback. -/
theorem C8_sleep_truncated_min_plus_one (cap : Capability) (prompt : String)
    (models : List String) (st st' : GenState) (fuel : ℕ)
    (h : runModels cap prompt models st 0 0 = .ok (.done 0 models.length st')) :
    runCycles cap prompt models st (fuel + 2) =
      runCycles cap prompt models
        (doSleep st' ((pyint (minWait st'.quota st'.now) + 1 : ℤ) : ℚ)) (fuel + 1) ∧
    runCycles cap prompt models st 1 = .ok (none, st') := by
  constructor
  · rw [runCycles_succ_done cap prompt models st st' (fuel + 1) 0 models.length h]
    simp
  · rw [runCycles_succ_done cap prompt models st st' 0 0 models.length h]
    simp

/-- Witness for C8's amended theorem at concrete inputs: from `st8` the
all-cooldown pass leaves the state unchanged, a non-final cycle sleeps and
recurses, and a final cycle stops without sleeping. -/
theorem C8_sleep_truncated_min_plus_one_witness :
    (runCycles cap429 "p" ["m"] st8 2 =
      runCycles cap429 "p" ["m"]
        (doSleep st8 ((pyint (minWait st8.quota st8.now) + 1 : ℤ) : ℚ)) 1) ∧
    runCycles cap429 "p" ["m"] st8 1 = .ok (none, st8) :=
  C8_sleep_truncated_min_plus_one cap429 "p" ["m"] st8 st8 0
    (by norm_num [runModels, checkCooldown, qLookup, st8, QUOTA_RESET_SECONDS])

/-- Under a capability whose every answer is a quota-classified raised
failure, a pass never reaches the success exit, and it spends at most one
consult per listed model. -/
theorem runModels_allQuota (cap : Capability)
    (hq : ∀ n m p, ∃ msg, cap n m p = .call (.raised msg) ∧ isQuotaError msg = true)
    (prompt : String) :
    ∀ (models : List String) (st : GenState) (tried cooldown : ℕ),
      ∃ tr cd st', runModels cap prompt models st tried cooldown = .ok (.done tr cd st') ∧
        st'.calls ≤ st.calls + models.length := by
  intro models
  induction models with
  | nil => exact fun st tried cooldown => ⟨tried, cooldown, st, rfl, by simp⟩
  | cons M rest ih =>
      intro st tried cooldown
      rcases hchk : checkCooldown st.quota M st.now with ⟨avail, q'⟩
      cases avail
      · obtain ⟨tr, cd, st', hrm, hcalls⟩ := ih { st with quota := q' } tried (cooldown + 1)
        refine ⟨tr, cd, st',
          (runModels_cons_cooldown cap prompt M rest st tried cooldown q' hchk).trans hrm, ?_⟩
        have hcc : ({ st with quota := q' } : GenState).calls = st.calls := rfl
        rw [hcc] at hcalls
        simp only [List.length_cons]
        omega
      · obtain ⟨msg, hmsg, hqm⟩ := hq st.calls M prompt
        have hatt : attemptModel (cap st.calls M prompt) M st.now q' =
            .ok (.moveOn (qInsert q' M st.now)) := by
          rw [hmsg]
          simp [attemptModel, genTryBody, Except.map, pyTryCatch, hqm]
        obtain ⟨tr, cd, st', hrm, hcalls⟩ :=
          ih { st with quota := qInsert q' M st.now, trace := st.trace ++ [M],
                       calls := st.calls + 1 } (tried + 1) cooldown
        refine ⟨tr, cd, st',
          (runModels_cons_moveOn cap prompt M rest st tried cooldown q' _ hchk hatt).trans hrm,
          ?_⟩
        have hcc : ({ st with
            quota := qInsert q' M st.now,
            trace := st.trace ++ [M],
            calls := st.calls + 1 } : GenState).calls = st.calls + 1 := rfl
        rw [hcc] at hcalls
        simp only [List.length_cons]
        omega

/-- Under an always-quota capability, the cycle loop ends with no success
exit, consuming at most `fuel * |models|` consults. -/
theorem runCycles_allQuota (cap : Capability)
    (hq : ∀ n m p, ∃ msg, cap n m p = .call (.raised msg) ∧ isQuotaError msg = true)
    (prompt : String) (models : List String) :
    ∀ (fuel : ℕ) (st : GenState),
      ∃ st', runCycles cap prompt models st fuel = .ok (none, st') ∧
        st'.calls ≤ st.calls + fuel * models.length := by
  intro fuel
  induction fuel with
  | zero => exact fun st => ⟨st, rfl, by simp⟩
  | succ f ih =>
      intro st
      obtain ⟨tr, cd, st', hrm, hc⟩ := runModels_allQuota cap hq prompt models st 0 0
      rw [runCycles_succ_done cap prompt models st st' f tr cd hrm]
      split
      · split
        · obtain ⟨st'', h2, hc2⟩ :=
            ih (doSleep st' ((pyint (minWait st'.quota st'.now) + 1 : ℤ) : ℚ))
          refine ⟨st'', h2, ?_⟩
          have hds : (doSleep st' ((pyint (minWait st'.quota st'.now) + 1 : ℤ) : ℚ)).calls =
              st'.calls := rfl
          rw [hds] at hc2
          rw [Nat.succ_mul]
          omega
        · exact ⟨st', rfl, by rw [Nat.succ_mul]; omega⟩
      · split
        · obtain ⟨st'', h2, hc2⟩ := ih (doSleep st' 3)
          refine ⟨st'', h2, ?_⟩
          have hds : (doSleep st' 3).calls = st'.calls := rfl
          rw [hds] at hc2
          rw [Nat.succ_mul]
          omega
        · obtain ⟨st'', h2, hc2⟩ := ih st'
          refine ⟨st'', h2, ?_⟩
          rw [Nat.succ_mul]
          omega

/-- C9: if every capability invocation for every model fails with a
quota-classified failure, the run ends after its bounded `MAX_CYCLES`
passes — consulting the capability at most `MAX_CYCLES * |models|` times —
and returns the locally built fallback content. -/
theorem C9_all_quota_fallback (cap : Capability)
    (hq : ∀ n m p, ∃ msg, cap n m p = .call (.raised msg) ∧ isQuotaError msg = true)
    (cfg : ModelCfg) (basePrompt sender recipient ctx : String) (st0 : GenState) :
    ∃ st, generate_email_content true cfg cap basePrompt sender recipient ctx st0 =
        .ok ⟨fallbackContent recipient ctx sender, st⟩ ∧
      st.calls ≤ st0.calls + MAX_CYCLES * (normalizeModels cfg).length := by
  obtain ⟨st, hrc, hc⟩ :=
    runCycles_allQuota cap hq (fullPrompt basePrompt recipient ctx sender)
      (normalizeModels cfg) MAX_CYCLES st0
  exact ⟨st, generate_true_none cfg cap basePrompt sender recipient ctx st0 st hrc, hc⟩

/-- Witness for C9 at concrete inputs: the always-quota capability on a
one-model list. -/
theorem C9_all_quota_fallback_witness :
    ∃ st, generate_email_content true (.list ["m"]) cap429 "p" "S" "R" "ctx" (initState 0) =
        .ok ⟨fallbackContent "R" "ctx" "S", st⟩ ∧
      st.calls ≤ (initState 0).calls + MAX_CYCLES * (normalizeModels (.list ["m"])).length :=
  C9_all_quota_fallback cap429 (fun n m p => ⟨"429 boom", rfl, by decide⟩)
    (.list ["m"]) "p" "S" "R" "ctx" (initState 0)
